import Mathlib

/-!
Shallow embedding of the ringdown-model and Bayesian-comparison core of the
EDR-QNM-Search repository (scripts/model_gr.py, scripts/model_edr.py,
scripts/model_edr_full.py, scripts/bayes_compare_edr.py,
scripts/fit_edr_full.py).

Modelling conventions: machine floats are real numbers; numpy arrays are
lists of reals (elementwise numpy operations become List.map / List.zipWith,
and a skipped mode, which the Python code represents as the broadcast scalar
0.0, becomes the all-zero list of the same length); Python exceptions are the
Except monad with a String payload carrying the error class/message.
-/

open Real

namespace EDRQNM

/-- Gravitational constant, scripts/model_gr.py line 26. -/
def G : ℝ := 6.67430e-11

/-- Speed of light, scripts/model_gr.py line 27. -/
def c : ℝ := 299792458.0

/-- Solar mass in kg, scripts/model_gr.py line 28. -/
def M_sun : ℝ := 1.98847e30

/-- Berti fit coefficients for mode (2,2,0), scripts/model_gr.py lines 34-40. -/
def f1_22 : ℝ := 1.5251
def f2_22 : ℝ := -1.1568
def f3_22 : ℝ := 0.1292
def q1_22 : ℝ := 0.7000
def q2_22 : ℝ := 1.4187
def q3_22 : ℝ := -0.4990

/-- Fit coefficients for mode (3,3,0), scripts/model_gr.py lines 46-52. -/
def f1_33 : ℝ := 1.8956
def f2_33 : ℝ := -1.3043
def f3_33 : ℝ := 0.1818
def q1_33 : ℝ := 1.0000
def q2_33 : ℝ := 1.4170
def q3_33 : ℝ := -0.4990

/-- Fit coefficients for mode (2,1,0), scripts/model_gr.py lines 58-64. -/
def f1_21 : ℝ := 0.6000
def f2_21 : ℝ := -0.2339
def f3_21 : ℝ := 0.4175
def q1_21 : ℝ := 0.5000
def q2_21 : ℝ := 0.7000
def q3_21 : ℝ := -0.3000

/-- Python float power `x ** y`.  Python raises ZeroDivisionError when a zero
base is raised to a negative power; for a positive base it returns the real
power.  (A negative base with a fractional exponent yields a complex number in
Python; no code path settled in this development reaches that case, and it is
modelled by the Mathlib real power.) -/
noncomputable def pypow (x y : ℝ) : Except String ℝ :=
  if x = 0 ∧ y < 0 then
    Except.error "ZeroDivisionError: 0.0 cannot be raised to a negative power"
  else Except.ok (x ^ y)

/-- Dimensionless frequency fit `f1 + f2 * (1.0 - chi)**f3`,
scripts/model_gr.py lines 70-71, with Python power semantics. -/
noncomputable def MomegaR (chi f1 f2 f3 : ℝ) : Except String ℝ :=
  (pypow (1.0 - chi) f3).map (fun p => f1 + f2 * p)

/-- Quality factor fit `q1 + q2 * (1.0 - chi)**q3`,
scripts/model_gr.py lines 74-75, with Python power semantics. -/
noncomputable def quality_factor (chi q1 q2 q3 : ℝ) : Except String ℝ :=
  (pypow (1.0 - chi) q3).map (fun p => q1 + q2 * p)

/-- Shared tail of freq_tau after the mode coefficients are selected,
scripts/model_gr.py lines 100-111: convert the dimensionless frequency to
physical Hz and derive the decay time from the quality factor. -/
noncomputable def freq_tau_with (M_kg chi f1 f2 f3 q1 q2 q3 : ℝ) :
    Except String (ℝ × ℝ) :=
  match MomegaR chi f1 f2 f3 with
  | Except.error e => Except.error e
  | Except.ok Momega =>
    let omega := Momega * c ^ (3 : ℕ) / (G * M_kg)
    let f0 := omega / (2.0 * π)
    match quality_factor chi q1 q2 q3 with
    | Except.error e => Except.error e
    | Except.ok Q => Except.ok (f0, Q / (π * f0))

/-- The ModeSpectrumTable map freq_tau, scripts/model_gr.py lines 81-111.
Returns (f0 in Hz, tau in s) for the requested mode, raising the invalid-input
ValueError for an unsupported mode label (the Spanish message of line 98,
rendered without the inner quote marks). -/
noncomputable def freq_tau (M_solar chi : ℝ) (mode : String) :
    Except String (ℝ × ℝ) :=
  let M_kg := M_solar * M_sun
  if mode = "22" then freq_tau_with M_kg chi f1_22 f2_22 f3_22 q1_22 q2_22 q3_22
  else if mode = "33" then freq_tau_with M_kg chi f1_33 f2_33 f3_33 q1_33 q2_33 q3_33
  else if mode = "21" then freq_tau_with M_kg chi f1_21 f2_21 f3_21 q1_21 q2_21 q3_21
  else Except.error "ValueError: Modo no soportado. Usa 22, 33 o 21."

/-- Planck-taper window, scripts/model_gr.py lines 117-141.  The element loop
of lines 132-139 is a map over the time axis; the early return of lines
125-127 fires when no sample lies at or above t0.  The width dt uses the first
and last samples (numpy t[0], t[-1]). -/
noncomputable def planck_taper (t : List ℝ) (t0 eps : ℝ) : List ℝ :=
  let dt := eps * (t.getLastD 0 - t.headD 0)
  if ∀ s ∈ t, s < t0 then t.map (fun _ => 0)
  else
    let tf := t0 + dt
    t.map (fun s =>
      if s < t0 then 0
      else if tf < s then 1
      else
        let x := (s - t0) / (tf - t0)
        1.0 / (Real.exp (1.0 / x + 1.0 / (1.0 - x)) + 1.0))

/-- The masked damped-sinusoid array s built identically in
scripts/model_gr.py lines 152-160 and scripts/model_edr_full.py lines 38-44:
zero below t0, `A * exp(-(t-t0)/tau) * sin(2 pi f0 (t-t0) + phi)` at or above
t0. -/
noncomputable def damped_sine_core (t : List ℝ) (A f0 tau phi t0 : ℝ) : List ℝ :=
  t.map (fun s =>
    if t0 ≤ s then A * Real.exp (-(s - t0) / tau) * Real.sin (2.0 * π * f0 * (s - t0) + phi)
    else 0)

/-- Single-mode template damped_sine, scripts/model_gr.py lines 147-164:
the masked array multiplied elementwise by the Planck-taper window with the
default eps = 0.002; all-zero early return when no sample reaches t0. -/
noncomputable def damped_sine (t : List ℝ) (A f0 tau phi t0 : ℝ) : List ℝ :=
  if ∀ s ∈ t, s < t0 then t.map (fun _ => 0)
  else
    List.zipWith (fun a b => a * b) (damped_sine_core t A f0 tau phi t0)
      (planck_taper t t0 0.002)

/-- Single-mode template damped_sine_mode, scripts/model_edr_full.py lines
33-45: the masked array with no window; all-zero early return when no sample
reaches t0. -/
noncomputable def damped_sine_mode (t : List ℝ) (A f0 tau phi t0 : ℝ) : List ℝ :=
  if ∀ s ∈ t, s < t0 then t.map (fun _ => 0)
  else damped_sine_core t A f0 tau phi t0

/-- DeviationModel shift edr_shift_freq_tau, scripts/model_edr_full.py lines
22-30. -/
def edr_shift_freq_tau (f_gr tau_gr d_om d_tau : ℝ) : ℝ × ℝ :=
  (f_gr * (1.0 + d_om), tau_gr * (1.0 + d_tau))

/-- EDR frequency shift edr_f0, scripts/model_edr.py lines 24-29. -/
def edr_f0 (f0_gr delta_omega_ratio : ℝ) : ℝ :=
  f0_gr * (1.0 + delta_omega_ratio)

/-- EDR decay-time shift edr_tau, scripts/model_edr.py lines 35-40. -/
def edr_tau (tau_gr delta_tau_ratio : ℝ) : ℝ :=
  tau_gr * (1.0 + delta_tau_ratio)

/-- One guarded mode block of edr_multimode_full, scripts/model_edr_full.py
lines 82-96: when the amplitude is nonzero, look the mode up in freq_tau,
apply the deviation shift and build the single-mode signal; when it is zero,
skip the freq_tau lookup and contribute the broadcast zero (the all-zero
list).  The second component records which modes were looked up in freq_tau,
so that the skipping behaviour is itself a proved property of the embedding. -/
noncomputable def edr_guarded_mode (t : List ℝ) (Mrem chi A d_om d_tau phi t0 : ℝ)
    (mode : String) : Except String (List ℝ × List String) :=
  if A ≠ 0.0 then
    match freq_tau Mrem chi mode with
    | Except.error e => Except.error e
    | Except.ok p =>
      let q := edr_shift_freq_tau p.1 p.2 d_om d_tau
      Except.ok (damped_sine_mode t A q.1 q.2 phi t0, [mode])
  else Except.ok (t.map (fun _ => 0), [])

/-- Instrumented edr_multimode_full, scripts/model_edr_full.py lines 48-100:
the (2,2) mode is built unconditionally (lines 77-80), the (3,3) and (2,1)
modes go through the amplitude guard, and the total signal is the elementwise
sum.  Alongside the signal it returns the list of mode labels for which
freq_tau was evaluated, in evaluation order. -/
noncomputable def edr_multimode_full_instr (t : List ℝ)
    (Mrem chi A22 A33 A21 d_om22 d_tau22 d_om33 d_tau33 d_om21 d_tau21
      phi22 phi33 phi21 t0 : ℝ) : Except String (List ℝ × List String) :=
  match freq_tau Mrem chi "22" with
  | Except.error e => Except.error e
  | Except.ok p22 =>
    let q22 := edr_shift_freq_tau p22.1 p22.2 d_om22 d_tau22
    let h22 := damped_sine_mode t A22 q22.1 q22.2 phi22 t0
    match edr_guarded_mode t Mrem chi A33 d_om33 d_tau33 phi33 t0 "33" with
    | Except.error e => Except.error e
    | Except.ok p33 =>
      match edr_guarded_mode t Mrem chi A21 d_om21 d_tau21 phi21 t0 "21" with
      | Except.error e => Except.error e
      | Except.ok p21 =>
        Except.ok
          (List.zipWith (fun a b => a + b)
            (List.zipWith (fun a b => a + b) h22 p33.1) p21.1,
           "22" :: (p33.2 ++ p21.2))

/-- The signal returned by edr_multimode_full, scripts/model_edr_full.py
lines 48-100 (the instrumented builder with the lookup trace dropped). -/
noncomputable def edr_multimode_full (t : List ℝ)
    (Mrem chi A22 A33 A21 d_om22 d_tau22 d_om33 d_tau33 d_om21 d_tau21
      phi22 phi33 phi21 t0 : ℝ) : Except String (List ℝ) :=
  (edr_multimode_full_instr t Mrem chi A22 A33 A21 d_om22 d_tau22 d_om33
    d_tau33 d_om21 d_tau21 phi22 phi33 phi21 t0).map Prod.fst

/-- GR prior transform, scripts/bayes_compare_edr.py lines 56-71, with the
baseline frequency and decay time f_th, tau_th bound at model construction
(line 54). -/
noncomputable def gr_prior_transform (f_th tau_th : ℝ) (u : Fin 5 → ℝ) :
    Fin 5 → ℝ :=
  let A_min : ℝ := 0.0
  let A_max : ℝ := 2.0
  let f_min := 0.5 * f_th
  let f_max := 1.5 * f_th
  let tau_min := 0.5 * tau_th
  let tau_max := 1.5 * tau_th
  let t0_min : ℝ := 0.0
  let t0_max : ℝ := 0.05
  ![A_min + u 0 * (A_max - A_min),
    f_min + u 1 * (f_max - f_min),
    tau_min + u 2 * (tau_max - tau_min),
    -π + u 3 * (2.0 * π),
    t0_min + u 4 * (t0_max - t0_min)]

/-- EDR prior transform, scripts/bayes_compare_edr.py lines 99-134. -/
noncomputable def edr_prior_transform (u : Fin 13 → ℝ) : Fin 13 → ℝ :=
  let A_min : ℝ := 0.0
  let A_max : ℝ := 1.0
  let d_min : ℝ := -0.5
  let d_max : ℝ := 0.5
  let t0_min : ℝ := 0.0
  let t0_max : ℝ := 0.05
  ![A_min + u 0 * (A_max - A_min),
    A_min + u 1 * (A_max - A_min),
    A_min + u 2 * (A_max - A_min),
    d_min + u 3 * (d_max - d_min),
    d_min + u 4 * (d_max - d_min),
    d_min + u 5 * (d_max - d_min),
    d_min + u 6 * (d_max - d_min),
    d_min + u 7 * (d_max - d_min),
    d_min + u 8 * (d_max - d_min),
    -π + u 9 * (2.0 * π),
    -π + u 10 * (2.0 * π),
    -π + u 11 * (2.0 * π),
    t0_min + u 12 * (t0_max - t0_min)]

/-- GR log-likelihood closure, scripts/bayes_compare_edr.py lines 73-77.  The
observed series is read from the process-wide module variable `data` (declared
`global data` at line 191 and rebound by every bayes_compare call), not passed
in the call: that variable appears here as the explicit state argument
dataG, while t is the construction-time constant of make_gr_model. -/
noncomputable def gr_loglike (t dataG : List ℝ) (A f0 tau phi t0 : ℝ) : ℝ :=
  let h := damped_sine t A f0 tau phi t0
  let resid := List.zipWith (fun d x => d - x) dataG h
  let ll := -0.5 * (List.zipWith (fun a b => a * b) resid resid).sum
  ll

/-- EDR log-likelihood closure, scripts/bayes_compare_edr.py lines 136-163,
with the six baseline frequencies/decay times bound at construction (lines
95-97) and the module-global observed series as explicit state dataG. -/
noncomputable def edr_loglike (t dataG : List ℝ)
    (f22_gr tau22_gr f33_gr tau33_gr f21_gr tau21_gr : ℝ)
    (A22 A33 A21 d_om22 d_tau22 d_om33 d_tau33 d_om21 d_tau21
      phi22 phi33 phi21 t0 : ℝ) : ℝ :=
  let f22 := f22_gr * (1.0 + d_om22)
  let tau22 := tau22_gr * (1.0 + d_tau22)
  let f33 := f33_gr * (1.0 + d_om33)
  let tau33 := tau33_gr * (1.0 + d_tau33)
  let f21 := f21_gr * (1.0 + d_om21)
  let tau21 := tau21_gr * (1.0 + d_tau21)
  let h22 := damped_sine t A22 f22 tau22 phi22 t0
  let h33 := damped_sine t A33 f33 tau33 phi33 t0
  let h21 := damped_sine t A21 f21 tau21 phi21 t0
  let h := List.zipWith (fun a b => a + b) (List.zipWith (fun a b => a + b) h22 h33) h21
  let resid := List.zipWith (fun d x => d - x) dataG h
  let ll := -0.5 * (List.zipWith (fun a b => a * b) resid resid).sum
  ll

/-- Point-estimate objective neg_log_like, scripts/fit_edr_full.py lines
42-74: half the sum of squared residuals against the edr_multimode_full
template (here in the Except monad because freq_tau can raise). -/
noncomputable def neg_log_like (t dataArr : List ℝ) (Mrem chi : ℝ)
    (A22 A33 A21 d_om22 d_tau22 d_om33 d_tau33 d_om21 d_tau21
      phi22 phi33 phi21 t0 : ℝ) : Except String ℝ :=
  (edr_multimode_full t Mrem chi A22 A33 A21 d_om22 d_tau22 d_om33 d_tau33
    d_om21 d_tau21 phi22 phi33 phi21 t0).map
    (fun h =>
      let resid := List.zipWith (fun d x => d - x) dataArr h
      let nll := 0.5 * (List.zipWith (fun a b => a * b) resid resid).sum
      nll)

/-- The BayesFactorCalculator, scripts/bayes_compare_edr.py lines 203-206:
dlogZ, the Bayes factor, and the favored-model label. -/
noncomputable def bayes_factor_compare (logZ_gr logZ_edr : ℝ) : ℝ × ℝ × String :=
  let dlogZ := logZ_edr - logZ_gr
  let BF := Real.exp dlogZ
  (dlogZ, BF, if BF > 1 then "EDR" else "GR")

/-! Helper lemmas about list indexing and elementwise arithmetic. -/

lemma getD_map {α : Type} (l : List α) (f : α → ℝ) (da : α) :
    ∀ (i : ℕ), i < l.length → (l.map f).getD i 0 = f (l.getD i da) := by
  induction l with
  | nil => intro i h; simp at h
  | cons a l ih =>
    intro i h
    cases i with
    | zero => simp
    | succ n =>
      simp only [List.map_cons, List.getD_cons_succ]
      exact ih n (by simpa using h)

lemma getD_zipWith (f : ℝ → ℝ → ℝ) (a : List ℝ) :
    ∀ (b : List ℝ) (i : ℕ), i < a.length → i < b.length →
      (List.zipWith f a b).getD i 0 = f (a.getD i 0) (b.getD i 0) := by
  induction a with
  | nil => intro b i h; simp at h
  | cons x xs ih =>
    intro b i ha hb
    cases b with
    | nil => simp at hb
    | cons y ys =>
      cases i with
      | zero => simp
      | succ n =>
        simp only [List.zipWith_cons_cons, List.getD_cons_succ]
        exact ih ys n (by simpa using ha) (by simpa using hb)

lemma zipWith_map_same {α : Type} (f : ℝ → ℝ → ℝ) (g h : α → ℝ) (t : List α) :
    List.zipWith f (t.map g) (t.map h) = t.map (fun s => f (g s) (h s)) := by
  induction t with
  | nil => simp
  | cons a l ih => simp [ih]

lemma planck_taper_length (t : List ℝ) (t0 eps : ℝ) :
    (planck_taper t t0 eps).length = t.length := by
  unfold planck_taper
  split <;> simp

lemma zipWith_mul_self_sum (r : List ℝ) :
    (List.zipWith (fun a b => a * b) r r).sum = (r.map (fun a => a ^ 2)).sum := by
  rw [List.zipWith_same]
  congr 1
  exact List.map_congr_left (fun a _ => (sq a).symm)

lemma damped_sine_mode_eq_core (t : List ℝ) (A f0 tau phi t0 : ℝ) :
    damped_sine_mode t A f0 tau phi t0 = damped_sine_core t A f0 tau phi t0 := by
  unfold damped_sine_mode damped_sine_core
  split
  · next hall =>
    exact (List.map_congr_left (fun s hs => by
      rw [if_neg (not_le.mpr (hall s hs))])).symm
  · rfl

lemma damped_sine_core_zero_amp (t : List ℝ) (f0 tau phi t0 : ℝ) :
    damped_sine_core t 0 f0 tau phi t0 = t.map (fun _ => 0) := by
  unfold damped_sine_core
  exact List.map_congr_left (fun s _ => by split <;> simp)

/-! Settled claims. -/

/-- C9: the deviation shift with zero ratios reproduces the baseline pair
exactly, and in general computes (f·(1+d_freq_ratio), tau·(1+d_tau_ratio))
with no bounds enforcement; the single-ratio variants of model_edr.py agree. -/
theorem c9_deviation_shift (f tau : ℝ) :
    edr_shift_freq_tau f tau 0 0 = (f, tau) ∧
    (∀ d_om d_tau : ℝ,
      edr_shift_freq_tau f tau d_om d_tau = (f * (1 + d_om), tau * (1 + d_tau))) ∧
    edr_f0 f 0 = f ∧ edr_tau tau 0 = tau := by
  refine ⟨?_, fun d_om d_tau => ?_, ?_, ?_⟩ <;>
    simp [edr_shift_freq_tau, edr_f0, edr_tau] <;> norm_num

/-- C4: the Bayes-factor calculator computes dlogZ = logZ_EDR - logZ_GR and
BF = exp(dlogZ), favors the extended (EDR) label exactly when BF > 1, and at
equal evidences yields BF = 1 and deterministically favors the baseline (GR)
label. -/
theorem c4_bayes_factor (b e : ℝ) :
    (bayes_factor_compare b e).1 = e - b ∧
    (bayes_factor_compare b e).2.1 = Real.exp (e - b) ∧
    ((bayes_factor_compare b e).2.2 = "EDR" ↔ Real.exp (e - b) > 1) ∧
    (bayes_factor_compare b b).2.1 = 1 ∧
    (bayes_factor_compare b b).2.2 = "GR" := by
  unfold bayes_factor_compare
  refine ⟨rfl, rfl, ?_, by simp, ?_⟩
  · by_cases h : Real.exp (e - b) > 1
    · simp [h]
    · simp [h]
  · simp

/-- C7: each log-likelihood equals -0.5 times the sum of squared residuals,
the residual being the observed series minus the model template built from
theta, and the point-estimate objective is the negation of that quantity
(0.5 times the sum of squared residuals) for its template. -/
theorem c7_loglike_formula :
    (∀ (t dataG : List ℝ) (A f0 tau phi t0 : ℝ),
      gr_loglike t dataG A f0 tau phi t0 =
        -0.5 * ((List.zipWith (fun d x => d - x) dataG
            (damped_sine t A f0 tau phi t0)).map (fun r => r ^ 2)).sum) ∧
    (∀ (t dataG : List ℝ)
        (f22g tau22g f33g tau33g f21g tau21g : ℝ)
        (A22 A33 A21 d_om22 d_tau22 d_om33 d_tau33 d_om21 d_tau21
          phi22 phi33 phi21 t0 : ℝ),
      edr_loglike t dataG f22g tau22g f33g tau33g f21g tau21g
          A22 A33 A21 d_om22 d_tau22 d_om33 d_tau33 d_om21 d_tau21
          phi22 phi33 phi21 t0 =
        -0.5 * ((List.zipWith (fun d x => d - x) dataG
            (List.zipWith (fun a b => a + b)
              (List.zipWith (fun a b => a + b)
                (damped_sine t A22 (f22g * (1.0 + d_om22)) (tau22g * (1.0 + d_tau22)) phi22 t0)
                (damped_sine t A33 (f33g * (1.0 + d_om33)) (tau33g * (1.0 + d_tau33)) phi33 t0))
              (damped_sine t A21 (f21g * (1.0 + d_om21)) (tau21g * (1.0 + d_tau21)) phi21 t0))).map
            (fun r => r ^ 2)).sum) ∧
    (∀ (t dataArr : List ℝ) (Mrem chi : ℝ)
        (A22 A33 A21 d_om22 d_tau22 d_om33 d_tau33 d_om21 d_tau21
          phi22 phi33 phi21 t0 : ℝ),
      neg_log_like t dataArr Mrem chi A22 A33 A21 d_om22 d_tau22 d_om33
          d_tau33 d_om21 d_tau21 phi22 phi33 phi21 t0 =
        (edr_multimode_full t Mrem chi A22 A33 A21 d_om22 d_tau22 d_om33
            d_tau33 d_om21 d_tau21 phi22 phi33 phi21 t0).map
          (fun h =>
            -(-0.5 * ((List.zipWith (fun d x => d - x) dataArr h).map
                (fun r => r ^ 2)).sum))) := by
  refine ⟨fun t dataG A f0 tau phi t0 => ?_,
    fun t dataG f22g tau22g f33g tau33g f21g tau21g
      A22 A33 A21 d1 d2 d3 d4 d5 d6 p1 p2 p3 t0 => ?_,
    fun t dataArr Mrem chi A22 A33 A21 d1 d2 d3 d4 d5 d6 p1 p2 p3 t0 => ?_⟩
  · simp only [gr_loglike, zipWith_mul_self_sum]
  · simp only [edr_loglike, zipWith_mul_self_sum]
  · unfold neg_log_like
    congr 1
    funext h
    simp only [zipWith_mul_self_sum]
    ring

/-- C6: both prior transforms are componentwise strictly monotone linear maps
from the unit hypercube to the declared bounds: at u = 0 they return exactly
every lower bound, at u = 1 exactly every upper bound (GR: amplitude [0,2],
frequency [0.5, 1.5] times baseline, decay [0.5, 1.5] times baseline, phase
[-pi, pi], onset [0, 0.05]; EDR: amplitudes [0,1], deviation ratios
[-0.5, 0.5], phases [-pi, pi], onset [0, 0.05]). -/
theorem c6_prior_transform_bounds (f_th tau_th : ℝ)
    (hf : 0 < f_th) (ht : 0 < tau_th) :
    gr_prior_transform f_th tau_th (fun _ => 0) =
      ![0, 0.5 * f_th, 0.5 * tau_th, -π, 0] ∧
    gr_prior_transform f_th tau_th (fun _ => 1) =
      ![2, 1.5 * f_th, 1.5 * tau_th, π, 0.05] ∧
    (∀ (u v : Fin 5 → ℝ) (i : Fin 5), u i < v i →
      gr_prior_transform f_th tau_th u i < gr_prior_transform f_th tau_th v i) ∧
    edr_prior_transform (fun _ => 0) =
      ![0, 0, 0, -0.5, -0.5, -0.5, -0.5, -0.5, -0.5, -π, -π, -π, 0] ∧
    edr_prior_transform (fun _ => 1) =
      ![1, 1, 1, 0.5, 0.5, 0.5, 0.5, 0.5, 0.5, π, π, π, 0.05] ∧
    (∀ (u v : Fin 13 → ℝ) (i : Fin 13), u i < v i →
      edr_prior_transform u i < edr_prior_transform v i) := by
  refine ⟨?_, ?_, ?_, ?_, ?_, ?_⟩
  · funext i
    fin_cases i <;> simp [gr_prior_transform] <;> ring_nf
  · funext i
    fin_cases i <;> simp [gr_prior_transform] <;> ring_nf
  · intro u v i h
    fin_cases i <;>
      exact add_lt_add_left (mul_lt_mul_of_pos_right h
        (by first | positivity | linarith [hf, ht])) _
  · funext i
    fin_cases i <;> simp [edr_prior_transform] <;> ring_nf
  · funext i
    fin_cases i <;> simp [edr_prior_transform] <;> ring_nf
  · intro u v i h
    fin_cases i <;>
      exact add_lt_add_left (mul_lt_mul_of_pos_right h (by positivity)) _

/-- Witness for c6_prior_transform_bounds at the concrete baseline
f_th = 1, tau_th = 1. -/
theorem c6_witness :
    (0 : ℝ) < 1 ∧
    gr_prior_transform 1 1 (fun _ => 0) = ![0, 0.5 * 1, 0.5 * 1, -π, 0] :=
  ⟨by norm_num, (c6_prior_transform_bounds 1 1 (by norm_num) (by norm_num)).1⟩

lemma planck_taper_allbelow (t : List ℝ) (t0 eps : ℝ) (h : ∀ s ∈ t, s < t0) :
    planck_taper t t0 eps = t.map (fun _ => 0) := by
  unfold planck_taper
  simp only [if_pos h]

/-- C5: both single-mode template builders return exactly 0 at every sample
strictly below the onset t0, and when no sample reaches t0 they return the
all-zero signal rather than failing. -/
theorem c5_zero_before_onset :
    ∀ (t : List ℝ) (A f0 tau phi t0 : ℝ),
      (∀ i : ℕ, i < t.length → t.getD i 0 < t0 →
        (damped_sine t A f0 tau phi t0).getD i 0 = 0 ∧
        (damped_sine_mode t A f0 tau phi t0).getD i 0 = 0) ∧
      ((∀ s ∈ t, s < t0) →
        damped_sine t A f0 tau phi t0 = t.map (fun _ => 0) ∧
        damped_sine_mode t A f0 tau phi t0 = t.map (fun _ => 0)) := by
  intro t A f0 tau phi t0
  constructor
  · intro i hi hlt
    have hcore : (damped_sine_core t A f0 tau phi t0).getD i 0 = 0 := by
      unfold damped_sine_core
      rw [getD_map t _ 0 i hi, if_neg (not_le.mpr hlt)]
    constructor
    · unfold damped_sine
      split
      · rw [getD_map t _ 0 i hi]
      · rw [getD_zipWith _ _ _ i
            (by simpa [damped_sine_core] using hi)
            (by rw [planck_taper_length]; exact hi),
          hcore, zero_mul]
    · unfold damped_sine_mode
      split
      · rw [getD_map t _ 0 i hi]
      · exact hcore
  · intro hall
    constructor
    · unfold damped_sine
      rw [if_pos hall]
    · unfold damped_sine_mode
      rw [if_pos hall]

/-- Witness for c5_zero_before_onset: a concrete axis whose first sample lies
below the onset, and the all-below case. -/
theorem c5_witness :
    (0 : ℕ) < ([0, 1] : List ℝ).length ∧ ([0, 1] : List ℝ).getD 0 0 < 2 ∧
    ((damped_sine [0, 1] 1 1 1 1 2).getD 0 0 = 0 ∧
      (damped_sine_mode [0, 1] 1 1 1 1 2).getD 0 0 = 0) :=
  ⟨by norm_num, by norm_num [List.getD_cons_zero],
    (c5_zero_before_onset [0, 1] 1 1 1 1 2).1 0 (by norm_num)
      (by norm_num [List.getD_cons_zero])⟩

/-- C10 (amended): the two single-mode builders are not equal; their exact
relation is that damped_sine is damped_sine_mode multiplied elementwise by the
Planck-taper window at the default eps = 0.002. -/
theorem c10_amended (t : List ℝ) (A f0 tau phi t0 : ℝ) :
    damped_sine t A f0 tau phi t0 =
      List.zipWith (fun a b => a * b) (damped_sine_mode t A f0 tau phi t0)
        (planck_taper t t0 0.002) := by
  by_cases hall : ∀ s ∈ t, s < t0
  · unfold damped_sine damped_sine_mode
    rw [if_pos hall, if_pos hall, planck_taper_allbelow _ _ _ hall,
      zipWith_map_same]
    simp
  · unfold damped_sine damped_sine_mode
    rw [if_neg hall, if_neg hall]

/-- C10 (counterexample): on the axis [0, 1/1000, 1] with onset t0 = 1/2000,
amplitude 1, zero frequency, unit decay time and phase pi/2, the two
single-mode builders disagree at the middle sample, which falls inside the
taper ramp: damped_sine multiplies the damped sinusoid by the window value
1/(exp(16/3)+1) < 1 while damped_sine_mode does not. -/
theorem c10_counterexample :
    damped_sine [0, 1/1000, 1] 1 0 1 (π/2) (1/2000) ≠
      damped_sine_mode [0, 1/1000, 1] 1 0 1 (π/2) (1/2000) := by
  intro hEq
  have h1 := congrArg (fun l => l.getD 1 0) hEq
  have hm : (damped_sine_mode [0, 1/1000, 1] 1 0 1 (π/2) (1/2000)).getD 1 0 =
      Real.exp (-(1/2000)) := by
    norm_num [damped_sine_mode, damped_sine_core, List.getD_cons_zero,
      List.getD_cons_succ, Real.sin_pi_div_two]
  have hd : (damped_sine [0, 1/1000, 1] 1 0 1 (π/2) (1/2000)).getD 1 0 =
      Real.exp (-(1/2000)) * (1 / (Real.exp (16/3) + 1)) := by
    norm_num [damped_sine, damped_sine_core, planck_taper, List.getD_cons_zero,
      List.getD_cons_succ, List.getLastD, List.headD, Real.sin_pi_div_two]
  simp only [hm, hd] at h1
  have hE : (0:ℝ) < Real.exp (16/3) := Real.exp_pos _
  have ha : (0:ℝ) < Real.exp (-(1/2000)) := Real.exp_pos _
  have hEne : Real.exp (16/3) + 1 ≠ 0 := by positivity
  field_simp at h1

/-- C1: the onset window of planck_taper is defective at the concrete axis
[0.1, 0.5, 0.75, 500.1] with t0 = 0 and the default eps = 0.002 (ramp
interval [0, 1]): the window value at the in-ramp sample 0.75 is strictly
below the value at the earlier in-ramp sample 0.5 (so it is not monotone
non-decreasing on the ramp), and stays below 1/2 near the far edge of the
ramp instead of approaching 1.  The exponent of line 139 of
scripts/model_gr.py is 1/x + 1/(1-x); a Planck taper that rises from 0 to 1
needs 1/x - 1/(1-x). -/
theorem c1_taper_window_bug :
    (planck_taper [0.1, 0.5, 0.75, 500.1] 0 0.002).getD 2 0 <
      (planck_taper [0.1, 0.5, 0.75, 500.1] 0 0.002).getD 1 0 ∧
    (planck_taper [0.1, 0.5, 0.75, 500.1] 0 0.002).getD 2 0 < 1 / 2 := by
  have h1 : (planck_taper [0.1, 0.5, 0.75, 500.1] 0 0.002).getD 1 0 =
      1 / (Real.exp 4 + 1) := by
    norm_num [planck_taper, List.getD_cons_zero, List.getD_cons_succ,
      List.getLastD, List.headD]
  have h2 : (planck_taper [0.1, 0.5, 0.75, 500.1] 0 0.002).getD 2 0 =
      1 / (Real.exp (16/3) + 1) := by
    norm_num [planck_taper, List.getD_cons_zero, List.getD_cons_succ,
      List.getLastD, List.headD]
  rw [h1, h2]
  have hlt : Real.exp 4 + 1 < Real.exp (16/3) + 1 := by
    have := Real.exp_lt_exp.mpr (show (4:ℝ) < 16/3 by norm_num)
    linarith
  have h1e : (1:ℝ) < Real.exp (16/3) := by
    have h0 := Real.exp_lt_exp.mpr (show (0:ℝ) < 16/3 by norm_num)
    rwa [Real.exp_zero] at h0
  constructor
  · exact one_div_lt_one_div_of_lt (by positivity) hlt
  · rw [div_lt_div_iff₀ (by positivity) (by norm_num)]
    linarith

lemma gr_loglike_global_zero : gr_loglike [1] [0] 0 0 1 0 0 = 0 := by
  norm_num [gr_loglike, damped_sine, damped_sine_core, planck_taper]

lemma gr_loglike_global_two : gr_loglike [1] [2] 0 0 1 0 0 = -2 := by
  norm_num [gr_loglike, damped_sine, damped_sine_core, planck_taper]

/-- C3 (counterexample): the GR log-likelihood closure does depend on
process-wide mutable state beyond its explicitly passed arguments: it reads
the observed series from the module-global `data` variable, which appears in
the embedding as the explicit state argument.  With the same parameter vector
(A, f0, tau, phi, t0) = (0, 0, 1, 0, 0) and the same construction-time axis
t = [1], two calls under global data [0] and [2] (as after a second
bayes_compare run rebinding the global) return 0 and -2. -/
theorem c3_counterexample :
    gr_loglike [1] [0] 0 0 1 0 0 ≠ gr_loglike [1] [2] 0 0 1 0 0 := by
  rw [gr_loglike_global_zero, gr_loglike_global_two]
  norm_num

/-- C3 (amended): the log-likelihood closures are deterministic in the pair
(module-global observed data, parameter vector) together with the
construction-time constants, but they genuinely depend on the process-wide
global: fixing it fixes the value, and changing it between calls changes the
value at the same parameter vector. -/
theorem c3_amended :
    (∀ (t d₁ d₂ : List ℝ) (A f0 tau phi t0 : ℝ), d₁ = d₂ →
      gr_loglike t d₁ A f0 tau phi t0 = gr_loglike t d₂ A f0 tau phi t0) ∧
    (∀ (t d₁ d₂ : List ℝ)
        (f22g tau22g f33g tau33g f21g tau21g : ℝ)
        (A22 A33 A21 d_om22 d_tau22 d_om33 d_tau33 d_om21 d_tau21
          phi22 phi33 phi21 t0 : ℝ), d₁ = d₂ →
      edr_loglike t d₁ f22g tau22g f33g tau33g f21g tau21g
          A22 A33 A21 d_om22 d_tau22 d_om33 d_tau33 d_om21 d_tau21
          phi22 phi33 phi21 t0 =
        edr_loglike t d₂ f22g tau22g f33g tau33g f21g tau21g
          A22 A33 A21 d_om22 d_tau22 d_om33 d_tau33 d_om21 d_tau21
          phi22 phi33 phi21 t0) ∧
    gr_loglike [1] [0] 0 0 1 0 0 = 0 ∧
    gr_loglike [1] [2] 0 0 1 0 0 = -2 := by
  refine ⟨fun t d₁ d₂ A f0 tau phi t0 h => by rw [h],
    fun t d₁ d₂ f22g tau22g f33g tau33g f21g tau21g
      A22 A33 A21 d1 d2 d3 d4 d5 d6 p1 p2 p3 t0 h => by rw [h],
    gr_loglike_global_zero, gr_loglike_global_two⟩

/-- Witness for c3_amended: the determinism conjuncts applied at a concrete
global state. -/
theorem c3_witness :
    ([0] : List ℝ) = [0] ∧
    gr_loglike [1] [0] 1 2 3 4 5 = gr_loglike [1] [0] 1 2 3 4 5 :=
  ⟨rfl, c3_amended.1 [1] [0] [0] 1 2 3 4 5 rfl⟩

lemma rpow_le_one_point_one (x e : ℝ) (hx0 : 0 < x) (hx : x ≤ 1.1)
    (he0 : 0 ≤ e) (he1 : e ≤ 1) : x ^ e ≤ 1.1 := by
  rcases le_total x 1 with h | h
  · exact le_trans (Real.rpow_le_one (le_of_lt hx0) h he0) (by norm_num)
  · calc x ^ e ≤ x ^ (1 : ℝ) := Real.rpow_le_rpow_of_exponent_le h he1
      _ = x := Real.rpow_one x
      _ ≤ 1.1 := hx

lemma freq_tau_with_pos (M_kg chi f1 f2 f3 q1 q2 q3 : ℝ)
    (hM : 0 < M_kg) (hbase : 0 < 1 - chi) (hb11 : 1 - chi ≤ 1.1)
    (hf30 : 0 < f3) (hf31 : f3 ≤ 1) (hq1 : 0 < q1) (hq2 : 0 < q2)
    (hf2 : f2 ≤ 0) (hpos : 0 < f1 + f2 * 1.1) :
    ∃ f tau, freq_tau_with M_kg chi f1 f2 f3 q1 q2 q3 = Except.ok (f, tau) ∧
      0 < f ∧ 0 < tau := by
  have hbne : ¬((1.0 : ℝ) - chi = 0 ∧ f3 < 0) := by
    intro h
    norm_num at h
    linarith [h.1]
  have hqne : ¬((1.0 : ℝ) - chi = 0 ∧ q3 < 0) := by
    intro h
    norm_num at h
    linarith [h.1]
  have hp0 : 0 < (1 - chi) ^ f3 := Real.rpow_pos_of_pos hbase f3
  have hp1 : (1 - chi) ^ f3 ≤ 1.1 :=
    rpow_le_one_point_one _ _ hbase hb11 (le_of_lt hf30) hf31
  have hMom : 0 < f1 + f2 * ((1 - chi) ^ f3) := by nlinarith
  have hc : (0 : ℝ) < c := by norm_num [c]
  have hG : (0 : ℝ) < G := by norm_num [G]
  have hf0 : 0 < (f1 + f2 * ((1 - chi) ^ f3)) * c ^ (3 : ℕ) / (G * M_kg) / (2.0 * π) := by
    apply div_pos
    · apply div_pos
      · exact mul_pos hMom (pow_pos hc 3)
      · exact mul_pos hG hM
    · positivity
  have hQ : 0 < q1 + q2 * ((1 - chi) ^ q3) :=
    add_pos hq1 (mul_pos hq2 (Real.rpow_pos_of_pos hbase q3))
  refine ⟨_, _, ?_, hf0, div_pos hQ (mul_pos Real.pi_pos hf0)⟩
  unfold freq_tau_with MomegaR quality_factor pypow
  rw [if_neg hbne, if_neg hqne]
  norm_num [Except.map]

lemma freq_tau_pos (M chi : ℝ) (hM : 0 < M) (hlo : -0.1 ≤ chi) (hhi : chi < 1) :
    ∀ mode ∈ (["22", "33", "21"] : List String),
      ∃ f tau, freq_tau M chi mode = Except.ok (f, tau) ∧ 0 < f ∧ 0 < tau := by
  have hbase : 0 < 1 - chi := by linarith
  have hb11 : 1 - chi ≤ 1.1 := by linarith
  have hMkg : 0 < M * M_sun := mul_pos hM (by norm_num [M_sun])
  intro mode hmode
  simp only [List.mem_cons, List.mem_singleton, List.not_mem_nil, or_false] at hmode
  rcases hmode with h | h | h <;> subst h <;> unfold freq_tau
  · simp only [if_pos rfl]
    exact freq_tau_with_pos _ _ _ _ _ _ _ _ hMkg hbase hb11
      (by norm_num [f3_22]) (by norm_num [f3_22]) (by norm_num [q1_22])
      (by norm_num [q2_22]) (by norm_num [f2_22]) (by norm_num [f1_22, f2_22])
  · norm_num only []
    exact freq_tau_with_pos _ _ _ _ _ _ _ _ hMkg hbase hb11
      (by norm_num [f3_33]) (by norm_num [f3_33]) (by norm_num [q1_33])
      (by norm_num [q2_33]) (by norm_num [f2_33]) (by norm_num [f1_33, f2_33])
  · norm_num only []
    exact freq_tau_with_pos _ _ _ _ _ _ _ _ hMkg hbase hb11
      (by norm_num [f3_21]) (by norm_num [f3_21]) (by norm_num [q1_21])
      (by norm_num [q2_21]) (by norm_num [f2_21]) (by norm_num [f1_21, f2_21])

/-- C2 (counterexample): freq_tau does not validate the spin: at remnant mass
68 and spin -0.1 with mode 22 it returns a value (Except.ok) instead of
raising any invalid-input error. -/
theorem c2_counterexample :
    (freq_tau 68 (-0.1) "22").map (fun _ => ()) = Except.ok () := by
  have hbne : ¬((1.0 : ℝ) - (-0.1) = 0 ∧ f3_22 < 0) := by norm_num
  have hqne : ¬((1.0 : ℝ) - (-0.1) = 0 ∧ q3_22 < 0) := by norm_num
  unfold freq_tau freq_tau_with MomegaR quality_factor pypow
  rw [if_pos rfl, if_neg hbne, if_neg hqne]
  norm_num [Except.map]

/-- C2 (amended): freq_tau validates only the mode label.  It raises the
invalid-input error exactly for an unsupported mode; it performs no spin
check: for every mass > 0 and spin in [-0.1, 1) (so in particular for the
claimed-invalid spin -0.1 as well as for all spins in [0,1)) and a supported
mode it returns a strictly positive pair (f0, tau), and at spin = 1.0 it
fails with a zero-division error from the quality-factor power, not with the
invalid-input error. -/
theorem c2_amended :
    (∀ (M chi : ℝ) (mode : String), mode ≠ "22" → mode ≠ "33" → mode ≠ "21" →
      freq_tau M chi mode =
        Except.error "ValueError: Modo no soportado. Usa 22, 33 o 21.") ∧
    (∀ M chi : ℝ, 0 < M → -0.1 ≤ chi → chi < 1 →
      ∀ mode ∈ (["22", "33", "21"] : List String),
        ∃ f tau, freq_tau M chi mode = Except.ok (f, tau) ∧ 0 < f ∧ 0 < tau) ∧
    (∀ M : ℝ, freq_tau M 1 "22" =
      Except.error "ZeroDivisionError: 0.0 cannot be raised to a negative power") := by
  refine ⟨fun M chi mode h22 h33 h21 => ?_, freq_tau_pos, fun M => ?_⟩
  · unfold freq_tau
    rw [if_neg h22, if_neg h33, if_neg h21]
  · unfold freq_tau freq_tau_with MomegaR quality_factor pypow
    rw [if_pos rfl]
    norm_num [f3_22, q3_22, Except.map]

/-- Witness for c2_amended: the positive-output conjunct at mass 68 and
spin 0.5 with mode 22. -/
theorem c2_witness :
    (0 : ℝ) < 68 ∧ (-0.1 : ℝ) ≤ 0.5 ∧ (0.5 : ℝ) < 1 ∧
    "22" ∈ (["22", "33", "21"] : List String) ∧
    (∃ f tau, freq_tau 68 0.5 "22" = Except.ok (f, tau) ∧ 0 < f ∧ 0 < tau) :=
  ⟨by norm_num, by norm_num, by norm_num, by simp,
    c2_amended.2.1 68 0.5 (by norm_num) (by norm_num) (by norm_num) "22" (by simp)⟩

lemma damped_sine_mode_zero_amp (t : List ℝ) (f0 tau phi t0 : ℝ) :
    damped_sine_mode t 0 f0 tau phi t0 = t.map (fun _ => 0) := by
  rw [damped_sine_mode_eq_core, damped_sine_core_zero_amp]

lemma zipWith_add_map_zero_right {α : Type} (t : List α) (g : α → ℝ) :
    List.zipWith (fun a b => a + b) (t.map g) (t.map fun _ => 0) = t.map g := by
  rw [zipWith_map_same]
  simp

lemma zipWith_add_map_zero_left {α : Type} (t : List α) (g : α → ℝ) :
    List.zipWith (fun a b => a + b) (t.map fun _ => 0) (t.map g) = t.map g := by
  rw [zipWith_map_same]
  simp

lemma zipWith_add_replicate_right {α : Type} (t : List α) (g : α → ℝ) :
    List.zipWith (fun a b => a + b) (t.map g) (List.replicate t.length 0) =
      t.map g := by
  induction t with
  | nil => simp
  | cons a l ih => simp [List.replicate_succ, ih]

lemma zipWith_add_replicate_left {α : Type} (t : List α) (g : α → ℝ) :
    List.zipWith (fun a b => a + b) (List.replicate t.length 0) (t.map g) =
      t.map g := by
  induction t with
  | nil => simp
  | cons a l ih => simp [List.replicate_succ, ih]

lemma zipWith_add_zero_zero {α : Type} (t : List α) :
    List.zipWith (fun a b => a + b) (t.map fun _ => (0 : ℝ))
      (List.replicate t.length 0) = t.map (fun _ => (0 : ℝ)) := by
  induction t with
  | nil => simp
  | cons a l ih => simp [List.replicate_succ, ih]

lemma freq_tau_with_ok_of (M_kg chi f1 f2 f3 q1 q2 q3 : ℝ)
    (hb : ¬((1.0 : ℝ) - chi = 0 ∧ f3 < 0))
    (hq : ¬((1.0 : ℝ) - chi = 0 ∧ q3 < 0)) :
    ∃ p, freq_tau_with M_kg chi f1 f2 f3 q1 q2 q3 = Except.ok p :=
  ⟨_, by
    unfold freq_tau_with MomegaR quality_factor pypow
    rw [if_neg hb, if_neg hq]
    rfl⟩

lemma freq_tau_ne_one_ok (M chi : ℝ) (h : chi ≠ 1) :
    ∀ m ∈ (["22", "33", "21"] : List String), ∃ p, freq_tau M chi m = Except.ok p := by
  have hne : ¬((1.0 : ℝ) - chi = 0) := by
    intro hc
    exact h (by linarith [hc])
  intro m hm
  simp only [List.mem_cons, List.mem_singleton, List.not_mem_nil, or_false] at hm
  have hb : ∀ y : ℝ, ¬((1.0 : ℝ) - chi = 0 ∧ y < 0) := fun y hc => hne hc.1
  rcases hm with h' | h' | h' <;> subst h'
  · obtain ⟨p, hp⟩ := freq_tau_with_ok_of (M * M_sun) chi f1_22 f2_22 f3_22
      q1_22 q2_22 q3_22 (hb _) (hb _)
    exact ⟨p, by unfold freq_tau; rw [if_pos rfl]; exact hp⟩
  · obtain ⟨p, hp⟩ := freq_tau_with_ok_of (M * M_sun) chi f1_33 f2_33 f3_33
      q1_33 q2_33 q3_33 (hb _) (hb _)
    exact ⟨p, by
      unfold freq_tau
      rw [if_neg (by decide), if_pos rfl]
      exact hp⟩
  · obtain ⟨p, hp⟩ := freq_tau_with_ok_of (M * M_sun) chi f1_21 f2_21 f3_21
      q1_21 q2_21 q3_21 (hb _) (hb _)
    exact ⟨p, by
      unfold freq_tau
      rw [if_neg (by decide), if_neg (by decide), if_pos rfl]
      exact hp⟩

lemma freq_tau_one_err (M : ℝ) :
    ∀ m ∈ (["22", "33", "21"] : List String),
      freq_tau M 1 m =
        Except.error "ZeroDivisionError: 0.0 cannot be raised to a negative power" := by
  intro m hm
  simp only [List.mem_cons, List.mem_singleton, List.not_mem_nil, or_false] at hm
  rcases hm with h' | h' | h' <;> subst h' <;>
    · unfold freq_tau freq_tau_with MomegaR quality_factor pypow
      norm_num [f3_22, q3_22, f3_33, q3_33, f3_21, q3_21, Except.map]

/-- C8 (counterexample): with a zero (2,2) amplitude and a nonzero (3,3)
amplitude, the multimode builder still evaluates freq_tau for the zero-
amplitude mode "22": the recorded lookup trace at t = [0], Mrem = 68,
chi = 0.67, A22 = 0, A33 = 1, A21 = 0 is ["22", "33"]. -/
theorem c8_counterexample :
    (edr_multimode_full_instr [0] 68 0.67 0 1 0 0 0 0 0 0 0 0 0 0 0).map
        Prod.snd = Except.ok ["22", "33"] := by
  obtain ⟨p22, h22⟩ := freq_tau_ne_one_ok 68 0.67 (by norm_num) "22" (by simp)
  obtain ⟨p33, h33⟩ := freq_tau_ne_one_ok 68 0.67 (by norm_num) "33" (by simp)
  unfold edr_multimode_full_instr edr_guarded_mode
  rw [h22]
  simp only [ne_eq, h33, Except.map]
  norm_num

/-- C8 (amended): the multimode template with a single potentially nonzero
amplitude equals the single-mode template for that mode exactly (propagating
any freq_tau failure), and the freq_tau lookup trace always contains "22" —
the (2,2) mode is evaluated even at zero amplitude — while the guarded (3,3)
and (2,1) modes are looked up exactly when their amplitudes are nonzero. -/
theorem c8_amended :
    (∀ (t : List ℝ) (Mrem chi A d_om22 d_tau22 d_om33 d_tau33 d_om21 d_tau21
        phi22 phi33 phi21 t0 : ℝ),
      edr_multimode_full t Mrem chi A 0 0 d_om22 d_tau22 d_om33 d_tau33
          d_om21 d_tau21 phi22 phi33 phi21 t0 =
        (freq_tau Mrem chi "22").map (fun p =>
          damped_sine_mode t A (edr_shift_freq_tau p.1 p.2 d_om22 d_tau22).1
            (edr_shift_freq_tau p.1 p.2 d_om22 d_tau22).2 phi22 t0)) ∧
    (∀ (t : List ℝ) (Mrem chi A d_om22 d_tau22 d_om33 d_tau33 d_om21 d_tau21
        phi22 phi33 phi21 t0 : ℝ), A ≠ 0 →
      edr_multimode_full t Mrem chi 0 A 0 d_om22 d_tau22 d_om33 d_tau33
          d_om21 d_tau21 phi22 phi33 phi21 t0 =
        (freq_tau Mrem chi "22").bind (fun _ =>
          (freq_tau Mrem chi "33").map (fun p =>
            damped_sine_mode t A (edr_shift_freq_tau p.1 p.2 d_om33 d_tau33).1
              (edr_shift_freq_tau p.1 p.2 d_om33 d_tau33).2 phi33 t0))) ∧
    (∀ (t : List ℝ) (Mrem chi A d_om22 d_tau22 d_om33 d_tau33 d_om21 d_tau21
        phi22 phi33 phi21 t0 : ℝ), A ≠ 0 →
      edr_multimode_full t Mrem chi 0 0 A d_om22 d_tau22 d_om33 d_tau33
          d_om21 d_tau21 phi22 phi33 phi21 t0 =
        (freq_tau Mrem chi "22").bind (fun _ =>
          (freq_tau Mrem chi "21").map (fun p =>
            damped_sine_mode t A (edr_shift_freq_tau p.1 p.2 d_om21 d_tau21).1
              (edr_shift_freq_tau p.1 p.2 d_om21 d_tau21).2 phi21 t0))) ∧
    (∀ (t : List ℝ) (Mrem chi A22 A33 A21 d_om22 d_tau22 d_om33 d_tau33
        d_om21 d_tau21 phi22 phi33 phi21 t0 : ℝ),
      (edr_multimode_full_instr t Mrem chi A22 A33 A21 d_om22 d_tau22 d_om33
          d_tau33 d_om21 d_tau21 phi22 phi33 phi21 t0).map Prod.snd =
        (freq_tau Mrem chi "22").map (fun _ =>
          "22" :: ((if A33 = 0 then [] else ["33"]) ++
            (if A21 = 0 then [] else ["21"])))) := by
  refine ⟨?_, ?_, ?_, ?_⟩
  · intro t Mrem chi A d1 d2 d3 d4 d5 d6 p1 p2 p3 t0
    unfold edr_multimode_full edr_multimode_full_instr edr_guarded_mode
    cases hft : freq_tau Mrem chi "22" with
    | error e => simp [Except.map]
    | ok p =>
      norm_num [Except.map]
      rw [damped_sine_mode_eq_core]
      unfold damped_sine_core
      rw [zipWith_add_replicate_right, zipWith_add_replicate_right]
  · intro t Mrem chi A d1 d2 d3 d4 d5 d6 p1 p2 p3 t0 hA
    unfold edr_multimode_full edr_multimode_full_instr edr_guarded_mode
    cases hft : freq_tau Mrem chi "22" with
    | error e => simp [Except.map, Except.bind]
    | ok p =>
      cases hft33 : freq_tau Mrem chi "33" with
      | error e =>
        norm_num [hA, hft33, Except.map, Except.bind]
      | ok p33 =>
        norm_num [hA, hft33, Except.map, Except.bind]
        rw [damped_sine_mode_zero_amp, damped_sine_mode_eq_core]
        unfold damped_sine_core
        rw [zipWith_add_map_zero_left, zipWith_add_replicate_right]
  · intro t Mrem chi A d1 d2 d3 d4 d5 d6 p1 p2 p3 t0 hA
    unfold edr_multimode_full edr_multimode_full_instr edr_guarded_mode
    cases hft : freq_tau Mrem chi "22" with
    | error e => simp [Except.map, Except.bind]
    | ok p =>
      cases hft21 : freq_tau Mrem chi "21" with
      | error e =>
        norm_num [hA, hft21, Except.map, Except.bind]
      | ok p21 =>
        norm_num [hA, hft21, Except.map, Except.bind]
        rw [damped_sine_mode_zero_amp, zipWith_add_zero_zero,
          damped_sine_mode_eq_core]
        unfold damped_sine_core
        rw [zipWith_add_map_zero_left]
  · intro t Mrem chi A22 A33 A21 d1 d2 d3 d4 d5 d6 p1 p2 p3 t0
    unfold edr_multimode_full_instr edr_guarded_mode
    cases hft : freq_tau Mrem chi "22" with
    | error e => simp [Except.map]
    | ok p =>
      have hchi : chi ≠ 1 := by
        intro hc
        subst hc
        rw [freq_tau_one_err Mrem "22" (by simp)] at hft
        exact nomatch hft
      obtain ⟨p33, h33⟩ := freq_tau_ne_one_ok Mrem chi hchi "33" (by simp)
      obtain ⟨p21, h21⟩ := freq_tau_ne_one_ok Mrem chi hchi "21" (by simp)
      by_cases hA33 : A33 = 0
      · by_cases hA21 : A21 = 0
        · norm_num [hA33, hA21, Except.map]
        · norm_num [hA33, hA21, h21, Except.map]
      · by_cases hA21 : A21 = 0
        · norm_num [hA33, hA21, h33, Except.map]
        · norm_num [hA33, hA21, h33, h21, Except.map]

/-- Witness for c8_amended: the single-nonzero-mode conjunct for the (3,3)
mode at amplitude 1 on concrete inputs. -/
theorem c8_witness :
    ((1 : ℝ) ≠ 0) ∧
    edr_multimode_full [0] 68 0.67 0 1 0 0 0 0 0 0 0 0 0 0 0 =
      (freq_tau 68 0.67 "22").bind (fun _ =>
        (freq_tau 68 0.67 "33").map (fun p =>
          damped_sine_mode [0] 1 (edr_shift_freq_tau p.1 p.2 0 0).1
            (edr_shift_freq_tau p.1 p.2 0 0).2 0 0)) :=
  ⟨by norm_num,
    c8_amended.2.1 [0] 68 0.67 1 0 0 0 0 0 0 0 0 0 0 (by norm_num)⟩

end EDRQNM
